import Mathlib

/-
  Verification of the FFV1 (version 3) frame decoder core, a shallow
  embedding of src/decoder.rs.  Collaborator modules that the repository
  does not ship under src (crc32mpeg2, range coder, slice footer scan,
  RCT inverses, configuration record parser) are either modelled from the
  specification text, or taken as parameters when the specification
  declares them external.  Machine integers are embedded as Nat and Int,
  with explicit mod where overflow matters.
-/

set_option maxRecDepth 16000

namespace FFV1

/-- Error taxonomy of the decoder (spec section 7). -/
inductive Err where
  | InvalidInputData : String → Err
  | FrameError : String → Err
  | SliceError : String → Err
deriving DecidableEq

/-- The message carried by an error, used when errors are rewrapped. -/
def Err.msg : Err → String
  | .InvalidInputData s => s
  | .FrameError s => s
  | .SliceError s => s

/-- The configuration record, parsed externally (spec section 3). -/
structure ConfigRecord where
  bits_per_raw_sample : Nat
  colorspace_type : Nat
  chroma_planes : Bool
  extra_plane : Bool
  log2_h_chroma_subsample : Nat
  log2_v_chroma_subsample : Nat
  num_h_slices_minus1 : Nat
  num_v_slices_minus1 : Nat
  coder_type : Nat
  ec : Nat
  quant_table_set_count : Nat
  context_count : List Nat
  quant_tables : List (List (List Int))
  state_transition_delta : List Int
  initial_state_delta : List (List (List Int))
deriving DecidableEq, Inhabited

/-- Golomb-Rice per-context adaptive state (spec section 3). -/
structure GolombState where
  drift : Int
  error_sum : Int
  count : Int
  bias : Int
deriving DecidableEq

/-- Zero state, the Rust Default for the state struct. -/
instance : Inhabited GolombState := ⟨⟨0, 0, 0, 0⟩⟩

/-- State.new: drift=0, error_sum=4, count=1, bias=0 (spec section 3). -/
def GolombState.new : GolombState := ⟨0, 4, 1, 0⟩

/-- A slice footer record: position, size and error status (spec section 3). -/
structure SliceInfo where
  pos : Nat
  size : Nat
  error_status : Nat
deriving DecidableEq

instance : Inhabited SliceInfo := ⟨⟨0, 0, 0⟩⟩

/-- Decoded slice header fields (decoder.rs parse_slice_header). -/
structure SliceHeader where
  slice_x : Nat
  slice_y : Nat
  slice_width_minus1 : Nat
  slice_height_minus1 : Nat
  quant_table_set_index : List Nat
  picture_structure : Nat
  sar_num : Nat
  sar_den : Nat
deriving DecidableEq

instance : Inhabited SliceHeader := ⟨⟨0, 0, 0, 0, [], 0, 0, 0⟩⟩

/-- A slice with its pixel rectangle and persistent coder state. -/
structure Slice where
  start_x : Nat
  start_y : Nat
  width : Nat
  height : Nat
  header : SliceHeader
  state : List (List (List Nat))
  golomb_state : List (List GolombState)
deriving DecidableEq

instance : Inhabited Slice := ⟨⟨0, 0, 0, 0, default, [], []⟩⟩

/-- Internal frame bookkeeping held inside the decoder. -/
structure InternalFrame where
  keyframe : Bool
  slice_info : List SliceInfo
  slices : List Slice
deriving DecidableEq

/-- The output frame (decoder.rs struct Frame).  Bytes and 16-bit and
32-bit samples are all embedded as Nat. -/
structure Frame where
  buf : List (List Nat)
  buf16 : List (List Nat)
  buf32 : List (List Nat)
  width : Nat
  height : Nat
  bit_depth : Nat
  color_space : Nat
  has_chroma : Bool
  has_alpha : Bool
  chroma_subsample_v : Nat
  chroma_subsample_h : Nat
deriving DecidableEq

/-- The decoder instance (decoder.rs struct Decoder). -/
structure Decoder where
  width : Nat
  height : Nat
  record : ConfigRecord
  state_transition : List Nat
  initial_states : List (List (List Nat))
  current_frame : InternalFrame
deriving DecidableEq

/-! ### CRC-32/MPEG-2

Modelled from the spec: the crc32mpeg2 module is not under src.  Spec
section 6: polynomial 0x04C11DB7, init 0xFFFFFFFF, no reflection, no
final XOR. -/

/-- One shift step of the MSB-first CRC register (32-bit). -/
def crc_step (crc : Nat) : Nat :=
  if crc &&& 2147483648 ≠ 0 then ((crc <<< 1) ^^^ 79764919) % 4294967296
  else (crc <<< 1) % 4294967296

/-- Feed one byte into the CRC register. -/
def crc_byte (crc b : Nat) : Nat :=
  (List.range 8).foldl (fun c _ => crc_step c) ((crc ^^^ ((b % 256) <<< 24)) % 4294967296)

/-- Modelled from the spec: CRC-32/MPEG-2 over a byte sequence. -/
def crc32_mpeg2 (data : List Nat) : Nat :=
  data.foldl crc_byte 4294967295

/-! ### Range coder

Modelled from the spec: the range coder module is not under src.  Spec
section 4.1 gives init, renormalize, get_bit, get_uint, set_table,
sentinel termination and position.  low and high are 16-bit registers;
the state transition table is embedded as a total function. -/

structure RangeCoder where
  buf : List Nat
  low : Nat
  high : Nat
  pos : Nat
  table : Nat → Nat

/-- init(buf): low = (buf[0] shl 8) or buf[1], high = 0xFF00, position 2. -/
def RangeCoder.init (buf : List Nat) (table : Nat → Nat) : RangeCoder :=
  { buf := buf, low := buf.getD 0 0 * 256 + buf.getD 1 0, high := 65280,
    pos := 2, table := table }

/-- One renormalization step: high shifts left a byte, low shifts in the
next input byte (16-bit registers). -/
def RangeCoder.refill (rc : RangeCoder) : RangeCoder :=
  { rc with high := (rc.high <<< 8) % 65536,
            low := ((rc.low <<< 8) % 65536) + rc.buf.getD rc.pos 0,
            pos := rc.pos + 1 }

/-- Renormalize while high is below 0x100.  On well-formed streams one
step restores high at least to 0x100; the model caps at two steps. -/
def RangeCoder.renorm (rc : RangeCoder) : RangeCoder :=
  if rc.high < 256 then
    let rc2 := rc.refill
    if rc2.high < 256 then rc2.refill else rc2
  else rc

/-- Modelled from the spec, section 4.1 get_bit: split from the high
byte of the range times the 8-bit state; symbol 0 keeps the lower
subrange and advances the state through the table, symbol 1 takes the
upper subrange and the mirrored table entry.  Returns the decoded bit,
the updated 8-bit state, and the updated coder. -/
def RangeCoder.get_bit (rc : RangeCoder) (s : Nat) : Bool × Nat × RangeCoder :=
  let split := (rc.high >>> 8) * s + 255
  if rc.low < rc.high - split then
    (false, rc.table s, RangeCoder.renorm { rc with high := rc.high - split })
  else
    (true, (256 - rc.table (256 - s)) % 256,
      RangeCoder.renorm { rc with low := rc.low - (rc.high - split), high := split })

/-- Decode one bit against slot idx of a 32-entry state array. -/
def bit_with_state (rc : RangeCoder) (states : List Nat) (idx : Nat) :
    Bool × List Nat × RangeCoder :=
  let r := rc.get_bit (states.getD idx 128)
  (r.1, states.set idx r.2.1, r.2.2)

/-- Unary length loop of get_uint: count set bits decoded with state
slots 1, 2, ...; fuel caps the prefix at 31 as in the spec. -/
def ur_len : RangeCoder → List Nat → Nat → Nat → Nat × List Nat × RangeCoder
  | rc, states, e, 0 => (e, states, rc)
  | rc, states, e, fuel + 1 =>
    let r := bit_with_state rc states (1 + e)
    if r.1 then ur_len r.2.2 r.2.1 (e + 1) fuel else (e, r.2.1, r.2.2)

/-- Modelled from the spec, section 4.1 get_uint: a bit with slot 0 (0
means value 0), then a unary prefix e with slots 1 .. and e mantissa
bits with slots e+1 .., assembled as (1 shl e) or mantissa. -/
def RangeCoder.ur (rc : RangeCoder) (states : List Nat) : Nat × List Nat × RangeCoder :=
  let r0 := bit_with_state rc states 0
  if r0.1 = false then (0, r0.2.1, r0.2.2)
  else
    let rl := ur_len r0.2.2 r0.2.1 0 31
    let e := rl.1
    let rm := (List.range e).foldl
      (fun (acc : Nat × List Nat × RangeCoder) i =>
        let r := bit_with_state acc.2.2 acc.2.1 (e + 1 + i)
        (acc.1 * 2 + (if r.1 then 1 else 0), r.2.1, r.2.2))
      (0, rl.2.1, rl.2.2)
    ((1 <<< e) ||| rm.1, rm.2.1, rm.2.2)

/-- Modelled from the spec: sentinel termination reads one final bit to
flush the register before the Golomb-Rice handoff. -/
def RangeCoder.sentinal_end (rc : RangeCoder) : RangeCoder :=
  (rc.get_bit 129).2.2

/-- Byte position consumed so far. -/
def RangeCoder.get_pos (rc : RangeCoder) : Nat := rc.pos

/-- Modelled from the spec: is_keyframe reads the first range-coded bit
of the packet with a fresh state of 128 (the bit value does not depend
on the transition table, so the default table can be arbitrary). -/
def is_keyframe (buf : List Nat) : Bool :=
  ((RangeCoder.init buf (fun _ => 0)).get_bit 128).1

/-! ### Footer scan

Modelled from the spec: count_slices is not under src.  Spec sections
4.5 and 6: the trailing footer is [crc32 if ec : 4 BE] [error_status :
1] [slice_size : 3 BE]; prior footers are located by stepping backwards
by slice_size + footer_len; slice infos are produced in buffer order. -/

def footer_length (ec : Bool) : Nat := if ec then 8 else 4

/-- Big-endian 24-bit read at byte offset p. -/
def be24 (buf : List Nat) (p : Nat) : Nat :=
  buf.getD p 0 * 65536 + buf.getD (p + 1) 0 * 256 + buf.getD (p + 2) 0

/-- Scan footers backwards from endPos; fuel bounds the recursion (each
step consumes at least footer_length bytes). -/
def scan_footers (ec : Bool) (buf : List Nat) : Nat → Nat → Except String (List SliceInfo)
  | endPos, 0 => if endPos = 0 then .ok [] else .error "slice scan ran out of fuel"
  | endPos, fuel + 1 =>
    if endPos = 0 then .ok []
    else if endPos < footer_length ec then .error "footer larger than remaining data"
    else
      let size := be24 buf (endPos - 3)
      if endPos < footer_length ec + size then .error "invalid slice size"
      else
        let es := buf.getD (endPos - 4) 0
        let pos := endPos - footer_length ec - size
        match scan_footers ec buf pos fuel with
        | .error e => .error e
        | .ok rest => .ok (rest ++ [⟨pos, size, es⟩])

/-- Modelled from the spec: count the slices of a frame from its
trailing footers. -/
def count_slices (ec : Bool) (buf : List Nat) : Except String (List SliceInfo) :=
  scan_footers ec buf buf.length buf.length

/-! ### State initialization (decoder.rs initialize_states) -/

/-- One row of the initial-state tensor: element k is (pred + delta) mod
256 where pred is entry k of the previous row, or 128 for the first row
(encoded by the empty previous row and the getD default).  The Rust
bitmask with 255 on a possibly negative i16 equals the nonnegative
residue mod 256. -/
def state_row (prev : List Nat) (drow : List Int) : List Nat :=
  (List.range drow.length).map
    (fun k => (((prev.getD k 128 : Int) + drow.getD k 0) % 256).toNat)

/-- Build the rows of one state set, chaining each row into the next. -/
def state_set : List Nat → List (List Int) → List (List Nat)
  | _, [] => []
  | prev, drow :: rest =>
    let nr := state_row prev drow
    nr :: state_set nr rest

/-- The initial range-coder state tensor built from the record deltas
(decoder.rs initialize_states, lines 270 to 288). -/
def initial_states_of (delta : List (List (List Int))) : List (List (List Nat)) :=
  delta.map (state_set [])

/-- The custom state transition table: index 0 stays 0, index i at least
1 is (DEFAULT[i] + delta[i]) as u8.  The default table ships with the
range coder module, which is not under src, so it is a parameter. -/
def state_transition_of (defaultST : List Nat) (delta : List Int) : List Nat :=
  (List.range 256).map
    (fun i => if i = 0 then 0 else (((defaultST.getD i 0 : Int) + delta.getD i 0) % 256).toNat)

/-! ### Decoder construction (decoder.rs Decoder::new) -/

/-- Decoder::new.  The configuration record parser is an external
collaborator (spec sections 1 and 6), so it is a parameter, as is the
default state transition table of the range coder. -/
def decoder_new (parse : List Nat → Except String ConfigRecord) (defaultST : List Nat)
    (record : List Nat) (width height : Nat) : Except Err Decoder :=
  if width = 0 ∨ height = 0 then
    .error (.InvalidInputData ("invalid dimensions: " ++ toString width ++ "x" ++ toString height))
  else if record.isEmpty then
    .error (.InvalidInputData "invalid record with length zero")
  else
    match parse record with
    | .error e => .error (.InvalidInputData ("invalid v3 configuration record: " ++ e))
    | .ok cfg =>
      .ok { width := width, height := height, record := cfg,
            state_transition := state_transition_of defaultST cfg.state_transition_delta,
            initial_states := initial_states_of cfg.initial_state_delta,
            current_frame := { keyframe := false, slice_info := [], slices := [] } }

/-! ### Slice rectangle (decoder.rs parse_slice_header, lines 394 to 417)

The Rust arithmetic is on u32; multiplications and additions wrap mod
2 pow 32 (release semantics) and subtraction is twos complement. -/

def U32 : Nat := 4294967296

/-- The pixel rectangle of a slice from its header fields and the frame
dimensions, with u32 wrapping at every operation as in the source. -/
def slice_rect (sx sy w1 h1 W H nh nv : Nat) : Nat × Nat × Nat × Nat :=
  (sx * W % U32 / (nh + 1),
   sy * H % U32 / (nv + 1),
   (((sx + w1) % U32 + 1) % U32 * W % U32 / (nh + 1) + U32 - sx * W % U32 / (nh + 1)) % U32,
   (((sy + h1) % U32 + 1) % U32 * H % U32 / (nv + 1) + U32 - sy * H % U32 / (nv + 1)) % U32)

/-- Replace slice i of the decoder through an update function (the Rust
code mutates current_frame.slices[i] in place). -/
def set_slice (D : Decoder) (i : Nat) (f : Slice → Slice) : Decoder :=
  { D with current_frame := { D.current_frame with
      slices := D.current_frame.slices.set i (f (D.current_frame.slices.getD i default)) } }

/-- decoder.rs parse_slice_header: all fields decoded with get_uint over
a fresh 32-entry state array seeded to 128, then the pixel rectangle. -/
def parse_slice_header (D : Decoder) (rc : RangeCoder) (i : Nat) : Decoder × RangeCoder :=
  let st : List Nat := List.replicate 32 128
  let r1 := rc.ur st
  let r2 := r1.2.2.ur r1.2.1
  let r3 := r2.2.2.ur r2.2.1
  let r4 := r3.2.2.ur r3.2.1
  let qcount := 1 + (if D.record.chroma_planes then 1 else 0)
    + (if D.record.extra_plane then 1 else 0)
  let rq := (List.range qcount).foldl
    (fun (acc : List Nat × List Nat × RangeCoder) _ =>
      let r := acc.2.2.ur acc.2.1
      (acc.1 ++ [r.1 % 256], r.2.1, r.2.2))
    ([], r4.2.1, r4.2.2)
  let r5 := rq.2.2.ur rq.2.1
  let r6 := r5.2.2.ur r5.2.1
  let r7 := r6.2.2.ur r6.2.1
  let rect := slice_rect r1.1 r2.1 r3.1 r4.1 D.width D.height
    D.record.num_h_slices_minus1 D.record.num_v_slices_minus1
  (set_slice D i (fun s =>
    { s with
      header := { slice_x := r1.1, slice_y := r2.1,
                  slice_width_minus1 := r3.1, slice_height_minus1 := r4.1,
                  quant_table_set_index := rq.1, picture_structure := r5.1 % 256,
                  sar_num := r6.1, sar_den := r7.1 },
      start_x := rect.1, start_y := rect.2.1,
      width := rect.2.2.1, height := rect.2.2.2 }), r7.2.2)

/-! ### Slice state reset and footer parsing (decoder.rs) -/

/-- decoder.rs reset_slice_states: copy the initial-state tensor into
slice i, and reinitialize the Golomb states when coder_type is 0. -/
def reset_slice_states (D : Decoder) (i : Nat) : Decoder :=
  set_slice D i (fun s =>
    { s with
      state := D.initial_states,
      golomb_state :=
        if D.record.coder_type = 0 then
          (List.range D.record.quant_table_set_count).map
            (fun j => List.replicate (D.record.context_count.getD j 0) GolombState.new)
        else s.golomb_state })

/-- The fresh slice vector built by parse_footers for an inter frame:
defaults with the range-coder state carried from the prior slices, and
the Golomb state carried too when coder_type is 0 (decoder.rs lines 306
to 321). -/
def clone_states (old : List Slice) (coder0 : Bool) (n : Nat) : List Slice :=
  (List.range n).map (fun i =>
    { (default : Slice) with
      state := (old.getD i default).state,
      golomb_state :=
        if coder0 then (old.getD i default).golomb_state
        else (default : Slice).golomb_state })

/-- decoder.rs parse_footers: count the slices, then build the frame
slice vector (defaults for a keyframe, carried state for inter frames,
failing on a slice count mismatch). -/
def parse_footers (D : Decoder) (buf : List Nat) : Decoder × Except Err Unit :=
  match count_slices (D.record.ec != 0) buf with
  | .error e => (D, .error (.SliceError ("could not count slices: " ++ e)))
  | .ok infos =>
    if D.current_frame.keyframe = false then
      if infos.length ≠ D.current_frame.slices.length then
        ({ D with current_frame := { D.current_frame with slice_info := infos } },
         .error (.SliceError "inter frames must have the same number of slices as the preceding intra frame"))
      else
        ({ D with current_frame := { D.current_frame with
            slice_info := infos,
            slices := clone_states D.current_frame.slices (D.record.coder_type = 0) infos.length } },
         .ok ())
    else
      ({ D with current_frame := { D.current_frame with
          slice_info := infos, slices := List.replicate infos.length default } }, .ok ())

/-! ### Slice decoding (decoder.rs decode_slice)

The per-pixel slice content decoder (decode_slice_content and
decode_line) drives the entropy coders, whose modules are not under
src; its only effects are on the three frame plane buffers and on the
state tensors of the slice being decoded, so it is taken as a
parameter producing exactly those. -/

/-- The buffers and state tensors produced by slice content decoding. -/
structure ContentResult where
  buf : List (List Nat)
  buf16 : List (List Nat)
  buf32 : List (List Nat)
  state : List (List (List Nat))
  golomb_state : List (List GolombState)

/-- The Golomb-Rice coder over the slice buffer past the sentinel. -/
structure GolombCoder where
  buf : List Nat

/-- The external pieces decode_frame is parameterized over: the slice
content decoder and the default range-coder transition table. -/
structure Env where
  content : Decoder → RangeCoder → Option GolombCoder → Nat → Frame → ContentResult
  rc_default : Nat → Nat

/-- The infallible tail of decode_slice after the integrity checks:
keyframe state reset, range coder setup, keyframe bit skip on slice 0,
custom table install, header parse, Golomb handoff, content decode. -/
def decode_slice_main (env : Env) (D0 : Decoder) (buf : List Nat) (i : Nat)
    (frame : Frame) : Decoder × Frame :=
  let D := if D0.current_frame.keyframe then reset_slice_states D0 i else D0
  let info := D.current_frame.slice_info.getD i default
  let rc0 := RangeCoder.init (buf.drop info.pos) env.rc_default
  let st : List Nat := List.replicate 32 128
  let rc1 := if i = 0 then (bit_with_state rc0 st 0).2.2 else rc0
  let rc2 := if D.record.coder_type = 2 then
      { rc1 with table := fun j => D.state_transition.getD j 0 } else rc1
  let ph := parse_slice_header D rc2 i
  let gcr : RangeCoder × Option GolombCoder :=
    if ph.1.record.coder_type = 0 then
      let rcs := ph.2.sentinal_end
      (rcs, some { buf := buf.drop (info.pos + (rcs.get_pos - 1)) })
    else (ph.2, none)
  let res := env.content ph.1 gcr.1 gcr.2 i frame
  (set_slice ph.1 i (fun s => { s with state := res.state, golomb_state := res.golomb_state }),
   { frame with buf := res.buf, buf16 := res.buf16, buf32 := res.buf32 })

/-- decoder.rs decode_slice: when ec is 1, fail on a nonzero
error_status, then on a nonzero CRC residue over the slice data plus
its 8-byte footer; otherwise run the slice pipeline. -/
def decode_slice (env : Env) (D : Decoder) (buf : List Nat) (i : Nat)
    (frame : Frame) : Except Err (Decoder × Frame) :=
  if D.record.ec = 1 then
    if (D.current_frame.slice_info.getD i default).error_status ≠ 0 then
      .error (.SliceError ("error_status is non-zero: " ++
        toString (D.current_frame.slice_info.getD i default).error_status))
    else if crc32_mpeg2 ((buf.drop (D.current_frame.slice_info.getD i default).pos).take
        ((D.current_frame.slice_info.getD i default).size + 8)) ≠ 0 then
      .error (.InvalidInputData "CRC mismatch")
    else .ok (decode_slice_main env D buf i frame)
  else .ok (decode_slice_main env D buf i frame)

/-! ### Frame decoding (decoder.rs decode_frame) -/

/-- Plane count from the record flags. -/
def num_planes (r : ConfigRecord) : Nat :=
  1 + (if r.chroma_planes then 2 else 0) + (if r.extra_plane then 1 else 0)

/-- The output frame metadata built at the top of decode_frame
(decoder.rs lines 128 to 148). -/
def mk_frame (D : Decoder) : Frame :=
  { buf := [], buf16 := [], buf32 := [],
    width := D.width, height := D.height,
    bit_depth := D.record.bits_per_raw_sample,
    color_space := D.record.colorspace_type,
    has_chroma := D.record.chroma_planes,
    has_alpha := D.record.extra_plane,
    chroma_subsample_v := if D.record.chroma_planes then D.record.log2_v_chroma_subsample else 0,
    chroma_subsample_h := if D.record.chroma_planes then D.record.log2_h_chroma_subsample else 0 }

/-- Plane buffer allocation (decoder.rs lines 150 to 214): 8-bit byte
planes, 16-bit planes when deeper than 8 bits or RGB, 32-bit scratch
planes for 16-bit RGB. -/
def alloc_planes (D : Decoder) (f : Frame) : Frame :=
  let r := D.record
  let n := num_planes r
  let cw := D.width >>> r.log2_h_chroma_subsample
  let ch := D.height >>> r.log2_v_chroma_subsample
  let f1 :=
    if r.bits_per_raw_sample = 8 then
      let b0 := (List.replicate n ([] : List Nat)).set 0 (List.replicate (D.width * D.height) 0)
      let b1 := if r.chroma_planes then
          (b0.set 1 (List.replicate (cw * ch) 0)).set 2 (List.replicate (cw * ch) 0) else b0
      let b2 := if r.extra_plane then b1.set 3 (List.replicate (D.width * D.height) 0) else b1
      { f with buf := b2 }
    else f
  let f2 :=
    if r.bits_per_raw_sample > 8 ∨ r.colorspace_type = 1 then
      let b0 := (List.replicate n ([] : List Nat)).set 0 (List.replicate (D.width * D.height) 0)
      let b1 := if r.chroma_planes then
          (b0.set 1 (List.replicate (cw * ch) 0)).set 2 (List.replicate (cw * ch) 0) else b0
      let b2 := if r.extra_plane then b1.set 3 (List.replicate (D.width * D.height) 0) else b1
      { f1 with buf16 := b2 }
    else f1
  if r.bits_per_raw_sample = 16 ∧ r.colorspace_type = 1 then
    let b0 := (((List.replicate n ([] : List Nat)).set 0 (List.replicate (D.width * D.height) 0)).set 1
        (List.replicate (D.width * D.height) 0)).set 2 (List.replicate (D.width * D.height) 0)
    let b1 := if r.extra_plane then b0.set 3 (List.replicate (D.width * D.height) 0) else b0
    { f2 with buf32 := b1 }
  else f2

/-- The sequential per-slice loop of decode_frame, wrapping a slice
failure with its index and stopping there. -/
def slice_loop (env : Env) (buf : List Nat) :
    List Nat → Decoder → Frame → Decoder × Except Err Frame
  | [], D, f => (D, .ok f)
  | i :: rest, D, f =>
    match decode_slice env D buf i f with
    | .error e => (D, .error (.SliceError ("slice " ++ toString i ++ " failed: " ++ e.msg)))
    | .ok df => slice_loop env buf rest df.1 df.2

/-- decoder.rs decode_frame: build and allocate the output frame, read
the keyframe bit, parse the footers, decode every slice, then drop the
scratch buffers (buf16 for 8-bit RGB, buf32 always). -/
def decode_frame (env : Env) (D : Decoder) (input : List Nat) :
    Decoder × Except Err Frame :=
  let f0 := alloc_planes D (mk_frame D)
  let D1 := { D with current_frame := { D.current_frame with keyframe := is_keyframe input } }
  match parse_footers D1 input with
  | (D2, .error e) => (D2, .error (.FrameError ("invalid frame footer: " ++ e.msg)))
  | (D2, .ok _) =>
    match slice_loop env input (List.range D2.current_frame.slices.length) D2 f0 with
    | (D3, .error e) => (D3, .error e)
    | (D3, .ok f) =>
      let f1 := if D.record.bits_per_raw_sample = 8 ∧ D.record.colorspace_type = 1 then
          { f with buf16 := ([] : List (List Nat)) } else f
      (D3, .ok { f1 with buf32 := ([] : List (List Nat)) })

/-! ### RCT inverse dispatch (decoder.rs decode_slice_content, lines 752
to 785)

The three rct functions live in the jpeg2000rct module, which is not
under src; their pixel maps are modelled from spec section 4.4:
g = Y - ((Cb + Cr) asr 2), b = g + Cb, r = g + Cr, masked to
bits_per_raw_sample bits. -/

/-- Mask a signed sample to its low bits (twos complement low bits
equal the nonnegative residue). -/
def mask_bits (bits : Nat) (v : Int) : Nat := (v % ((2 : Int) ^ bits)).toNat

/-- Row-major element offsets of a slice rectangle. -/
def positions (w h stride off : Nat) : List Nat :=
  ((List.range h).map (fun y => (List.range w).map (fun x => off + y * stride + x))).flatten

/-- Modelled from the spec: the RCT inverse pixel map applied over a
slice rectangle, reading planes 0, 1, 2 of src and writing planes 0, 1,
2 of dst. -/
def rct_apply (bits : Nat) (src dst : List (List Nat)) (w h stride off : Nat) :
    List (List Nat) :=
  (positions w h stride off).foldl
    (fun d idx =>
      let yv : Int := (src.getD 0 []).getD idx 0
      let cb : Int := (src.getD 1 []).getD idx 0
      let cr : Int := (src.getD 2 []).getD idx 0
      let g := yv - Int.fdiv (cb + cr) 4
      let d0 := d.set 0 ((d.getD 0 []).set idx (mask_bits bits g))
      let d1 := d0.set 1 ((d0.getD 1 []).set idx (mask_bits bits (g + cb)))
      d1.set 2 ((d1.getD 2 []).set idx (mask_bits bits (g + cr))))
    dst

/-- Modelled from the spec: 8-bit RCT reads the 16-bit scratch and
writes the byte planes. -/
def rct8 (buf buf16 : List (List Nat)) (w h stride off : Nat) : List (List Nat) :=
  rct_apply 8 buf16 buf w h stride off

/-- Modelled from the spec: mid-depth RCT operates in place on the
16-bit planes. -/
def rct_mid (buf16 : List (List Nat)) (bits w h stride off : Nat) : List (List Nat) :=
  rct_apply bits buf16 buf16 w h stride off

/-- Modelled from the spec: 16-bit RCT reads the 32-bit scratch and
writes the 16-bit planes. -/
def rct16 (buf16 buf32 : List (List Nat)) (w h stride off : Nat) : List (List Nat) :=
  rct_apply 16 buf32 buf16 w h stride off

/-- Which RCT variant the source selects (the conditional chain at
decoder.rs lines 753 to 784). -/
inductive RctVariant where
  | v8 | vMid | v16
deriving DecidableEq

/-- The RCT selection condition of decode_slice_content: 8-bit, else
mid-depth only without an extra plane, else the 16-bit variant. -/
def rct_variant (bits : Nat) (extra_plane : Bool) : RctVariant :=
  if bits = 8 then .v8
  else if 9 ≤ bits ∧ bits ≤ 15 ∧ extra_plane = false then .vMid
  else .v16

/-- The RCT tail of decode_slice_content applied to the frame buffers,
with the source conditional chain. -/
def apply_rct (bits : Nat) (extra_plane : Bool) (f : Frame) (w h stride off : Nat) : Frame :=
  if bits = 8 then { f with buf := rct8 f.buf f.buf16 w h stride off }
  else if 9 ≤ bits ∧ bits ≤ 15 ∧ extra_plane = false then
    { f with buf16 := rct_mid f.buf16 bits w h stride off }
  else { f with buf16 := rct16 f.buf16 f.buf32 w h stride off }

/-! ### Helper lemmas -/

lemma getD_range_map {α : Type} (f : Nat → α) (n i : Nat) (d : α) (h : i < n) :
    ((List.range n).map f).getD i d = f i := by
  rw [List.getD_eq_getElem?_getD, List.getElem?_map, List.getElem?_range h]
  rfl

lemma getD_default_irrel {α : Type} (l : List α) (c : Nat) (d e : α) (h : c < l.length) :
    l.getD c d = l.getD c e := by
  rw [List.getD_eq_getElem?_getD, List.getD_eq_getElem?_getD, List.getElem?_eq_getElem h]
  rfl

lemma toNat_emod256_lt (x : Int) : (x % 256).toNat < 256 := by
  have h1 : (0 : Int) ≤ x % 256 := Int.emod_nonneg x (by norm_num)
  have h2 : x % 256 < 256 := Int.emod_lt_of_pos x (by norm_num)
  omega

lemma state_row_length (prev : List Nat) (drow : List Int) :
    (state_row prev drow).length = drow.length := by
  simp [state_row]

lemma state_row_getD (prev : List Nat) (drow : List Int) (c : Nat) (d : Nat)
    (hc : c < drow.length) :
    (state_row prev drow).getD c d = (((prev.getD c 128 : Int) + drow.getD c 0) % 256).toNat := by
  unfold state_row
  exact getD_range_map _ _ _ _ hc

lemma state_row_getD_lt (prev : List Nat) (drow : List Int) (c : Nat) :
    (state_row prev drow).getD c 0 < 256 := by
  by_cases hc : c < drow.length
  · rw [state_row_getD prev drow c 0 hc]
    exact toNat_emod256_lt _
  · rw [List.getD_eq_getElem?_getD, List.getElem?_eq_none]
    · norm_num
    · rw [state_row_length]
      omega

lemma state_set_length (rows : List (List Int)) :
    ∀ prev, (state_set prev rows).length = rows.length := by
  induction rows with
  | nil => intro prev; rfl
  | cons drow rest ih => intro prev; simp [state_set, ih]

lemma state_set_getD (rows : List (List Int)) :
    ∀ prev r, r < rows.length →
      (state_set prev rows).getD r [] =
        state_row (if r = 0 then prev else (state_set prev rows).getD (r - 1) [])
          (rows.getD r []) := by
  induction rows with
  | nil => intro prev r hr; simp at hr
  | cons drow rest ih =>
    intro prev r hr
    match r with
    | 0 => rfl
    | Nat.succ k =>
      show (state_set (state_row prev drow) rest).getD k [] = _
      have hk : k < rest.length := by simpa using hr
      rw [ih (state_row prev drow) k hk]
      match k with
      | 0 => rfl
      | Nat.succ m => rfl

lemma state_set_row_length (rows : List (List Int)) :
    ∀ prev r, r < rows.length →
      ((state_set prev rows).getD r []).length = (rows.getD r []).length := by
  intro prev r hr
  rw [state_set_getD rows prev r hr, state_row_length]

/-- The sign extension of a byte value into i16 that the specification
describes for the initial-state prediction. -/
def sign_extend8 (v : Nat) : Int := if 128 ≤ v then (v : Int) - 256 else v

/-- Claim C2: the initial-state tensor satisfies, for every set, row and
context in range, initial_states[s][r][c] = (pred + delta[s][r][c]) mod
256 with pred = 128 on row 0 and otherwise the previous row entry
sign-extended to i16. -/
theorem claim2_initial_state_recurrence (delta : List (List (List Int))) (s r c : Nat)
    (hs : s < delta.length)
    (hr : r < (delta.getD s []).length)
    (hc : c < ((delta.getD s []).getD r []).length)
    (hcp : r ≠ 0 → c < ((delta.getD s []).getD (r - 1) []).length) :
    (((initial_states_of delta).getD s []).getD r []).getD c 0 =
      (((if r = 0 then (128 : Int)
          else sign_extend8 ((((initial_states_of delta).getD s []).getD (r - 1) []).getD c 0))
         + ((delta.getD s []).getD r []).getD c 0) % 256).toNat := by
  have hset : (initial_states_of delta).getD s [] = state_set [] (delta.getD s []) := by
    unfold initial_states_of
    rw [List.getD_eq_getElem?_getD, List.getElem?_map, List.getElem?_eq_getElem hs]
    rw [List.getD_eq_getElem?_getD, List.getElem?_eq_getElem hs]
    rfl
  rw [hset]
  rw [state_set_getD (delta.getD s []) [] r hr]
  rw [state_row_getD _ _ _ _ hc]
  match r with
  | 0 => rfl
  | Nat.succ k =>
    have hk : k < (delta.getD s []).length := by omega
    have hck : c < ((delta.getD s []).getD k []).length := by
      have := hcp (by omega)
      simpa using this
    simp only [Nat.succ_ne_zero, if_false, Nat.succ_sub_one]
    -- the previous-row entry with default 128 equals the one with default 0
    have hlen : c < ((state_set [] (delta.getD s [])).getD k []).length := by
      rw [state_set_row_length (delta.getD s []) [] k hk]
      exact hck
    have hgd : ((state_set [] (delta.getD s [])).getD k []).getD c 128
        = ((state_set [] (delta.getD s [])).getD k []).getD c 0 :=
      getD_default_irrel _ c 128 0 hlen
    rw [hgd]
    -- sign extension does not change the residue mod 256
    have hv : ((state_set [] (delta.getD s [])).getD k []).getD c 0 < 256 := by
      rw [state_set_getD (delta.getD s []) [] k hk]
      exact state_row_getD_lt _ _ _
    set v := ((state_set [] (delta.getD s [])).getD k []).getD c 0 with hvdef
    set d := ((delta.getD s []).getD (k + 1) []).getD c 0 with hddef
    unfold sign_extend8
    by_cases h128 : 128 ≤ v
    · rw [if_pos h128]
      omega
    · rw [if_neg h128]

/-- Witness for claim C2 at a concrete delta tensor. -/
theorem claim2_witness :
    (((initial_states_of [[[3, 200], [-5, 7]]]).getD 0 []).getD 1 []).getD 1 0 =
      (((if 1 = 0 then (128 : Int)
          else sign_extend8 ((((initial_states_of [[[3, 200], [-5, 7]]]).getD 0 []).getD 0 []).getD 1 0))
         + (([[3, 200], [-5, 7]] : List (List Int)).getD 1 []).getD 1 0) % 256).toNat := by
  have h := claim2_initial_state_recurrence [[[3, 200], [-5, 7]]] 0 1 1
    (by decide) (by decide) (by decide) (fun _ => by decide)
  simpa using h

/-! ### Claim C3: slice pixel rectangle -/

lemma wrap_sub_eq (a b : Nat) (hba : b ≤ a) (ha : a < U32) :
    (a + U32 - b) % U32 = a - b := by
  unfold U32 at *
  omega

/-- Claim C3: when the header arithmetic fits in u32, the slice pixel
rectangle is given by the floor-division formulas of the spec. -/
theorem claim3_slice_rect (sx sy w1 h1 W H nh nv : Nat)
    (hx : sx + w1 + 1 < U32) (hy : sy + h1 + 1 < U32)
    (hxW : (sx + w1 + 1) * W < U32) (hyH : (sy + h1 + 1) * H < U32) :
    slice_rect sx sy w1 h1 W H nh nv =
      (sx * W / (nh + 1), sy * H / (nv + 1),
       (sx + w1 + 1) * W / (nh + 1) - sx * W / (nh + 1),
       (sy + h1 + 1) * H / (nv + 1) - sy * H / (nv + 1)) := by
  have hsxW : sx * W < U32 :=
    lt_of_le_of_lt (Nat.mul_le_mul_right W (by omega)) hxW
  have hsyH : sy * H < U32 :=
    lt_of_le_of_lt (Nat.mul_le_mul_right H (by omega)) hyH
  unfold slice_rect
  rw [Nat.mod_eq_of_lt hsxW, Nat.mod_eq_of_lt hsyH]
  rw [Nat.mod_eq_of_lt (show sx + w1 < U32 by omega),
    Nat.mod_eq_of_lt (show sy + h1 < U32 by omega)]
  rw [Nat.mod_eq_of_lt hx, Nat.mod_eq_of_lt hy]
  rw [Nat.mod_eq_of_lt hxW, Nat.mod_eq_of_lt hyH]
  have hlex : sx * W / (nh + 1) ≤ (sx + w1 + 1) * W / (nh + 1) :=
    Nat.div_le_div_right (Nat.mul_le_mul_right W (by omega))
  have hley : sy * H / (nv + 1) ≤ (sy + h1 + 1) * H / (nv + 1) :=
    Nat.div_le_div_right (Nat.mul_le_mul_right H (by omega))
  have hltx : (sx + w1 + 1) * W / (nh + 1) < U32 :=
    lt_of_le_of_lt (Nat.div_le_self _ _) hxW
  have hlty : (sy + h1 + 1) * H / (nv + 1) < U32 :=
    lt_of_le_of_lt (Nat.div_le_self _ _) hyH
  rw [wrap_sub_eq _ _ hlex hltx, wrap_sub_eq _ _ hley hlty]

/-- Witness for claim C3 at concrete header values. -/
theorem claim3_witness :
    slice_rect 1 1 0 0 10 6 1 1 = (5, 3, 5, 3) := by
  have h := claim3_slice_rect 1 1 0 0 10 6 1 1 (by decide) (by decide) (by decide) (by decide)
  rw [h]

/-! ### Claim C4: slice integrity checks -/

deriving instance DecidableEq for Except

lemma slice_window_eq (pre data footer : List Nat) (hfoot : footer.length = 8) :
    ((pre ++ data ++ footer).drop pre.length).take (data.length + 8) = data ++ footer := by
  rw [List.append_assoc, List.drop_left]
  rw [← hfoot, ← List.length_append, List.take_length]

/-- Claim C4: with ec = 1, decode_slice fails with a SliceError exactly
on a nonzero error_status, and otherwise fails with InvalidInputData
CRC mismatch exactly when the CRC-32/MPEG-2 residue over the slice data
concatenated with its 8-byte footer is nonzero; a slice passing both
checks proceeds into the slice pipeline. -/
theorem claim4_crc_checks (env : Env) (D : Decoder) (i : Nat) (f : Frame)
    (pre data footer : List Nat)
    (hec : D.record.ec = 1)
    (hpos : (D.current_frame.slice_info.getD i default).pos = pre.length)
    (hsize : (D.current_frame.slice_info.getD i default).size = data.length)
    (hfoot : footer.length = 8) :
    ((D.current_frame.slice_info.getD i default).error_status ≠ 0 →
      decode_slice env D (pre ++ data ++ footer) i f =
        .error (.SliceError ("error_status is non-zero: " ++
          toString (D.current_frame.slice_info.getD i default).error_status)))
    ∧ ((D.current_frame.slice_info.getD i default).error_status = 0 →
        crc32_mpeg2 (data ++ footer) ≠ 0 →
        decode_slice env D (pre ++ data ++ footer) i f =
          .error (.InvalidInputData "CRC mismatch"))
    ∧ ((D.current_frame.slice_info.getD i default).error_status = 0 →
        crc32_mpeg2 (data ++ footer) = 0 →
        decode_slice env D (pre ++ data ++ footer) i f =
          .ok (decode_slice_main env D (pre ++ data ++ footer) i f)) := by
  unfold decode_slice
  rw [hec, hpos, hsize, slice_window_eq pre data footer hfoot]
  refine ⟨?_, ?_, ?_⟩
  · intro hes
    rw [if_pos rfl, if_pos hes]
  · intro hes hcrc
    rw [if_pos rfl, if_neg (fun hcon => hcon hes), if_pos hcrc]
  · intro hes hcrc
    rw [if_pos rfl, if_neg (fun hcon => hcon hes), if_neg (fun hcon => hcon hcrc)]

/-- A trivial slice-content decoder and default transition table, used
to instantiate the environment parameters at concrete inputs. -/
def env0 : Env := { content := fun _ _ _ _ _ => ⟨[], [], [], [], []⟩, rc_default := fun _ => 0 }

/-- A YCbCr 8-bit configuration record used by concrete instances. -/
def rec_base : ConfigRecord :=
  { bits_per_raw_sample := 8, colorspace_type := 0, chroma_planes := false,
    extra_plane := false, log2_h_chroma_subsample := 0, log2_v_chroma_subsample := 0,
    num_h_slices_minus1 := 0, num_v_slices_minus1 := 0, coder_type := 1, ec := 0,
    quant_table_set_count := 0, context_count := [], quant_tables := [],
    state_transition_delta := [], initial_state_delta := [] }

/-- A 1 by 1 decoder over a given record with given stored slices. -/
def dec_with (r : ConfigRecord) (ss : List Slice) (si : List SliceInfo) : Decoder :=
  { width := 1, height := 1, record := r, state_transition := [],
    initial_states := [], current_frame := { keyframe := false, slice_info := si, slices := ss } }

/-- An empty frame used by concrete instances. -/
def frame0 : Frame := ⟨[], [], [], 1, 1, 8, 0, false, false, 0, 0⟩

def dec4 : Decoder := dec_with { rec_base with ec := 1 } [] [⟨0, 0, 0⟩]

def buf4 : List Nat := [255, 255, 255, 255, 0, 0, 0, 0]

/-- Witness for claim C4: a slice whose stored CRC makes the residue
zero passes both checks. -/
theorem claim4_witness :
    decode_slice env0 dec4 buf4 0 frame0 =
      .ok (decode_slice_main env0 dec4 buf4 0 frame0) := by
  have h := (claim4_crc_checks env0 dec4 0 frame0 [] [] buf4 rfl rfl rfl (by decide)).2.2
    (by decide) (by decide)
  simpa using h

/-! ### Claim C5: decoder construction -/

/-- True exactly on an InvalidInputData error result. -/
def is_invalid_input {α : Type} : Except Err α → Bool
  | .error (.InvalidInputData _) => true
  | _ => false

/-- True exactly when the external record parser failed. -/
def parse_failed {α : Type} : Except String α → Bool
  | .error _ => true
  | _ => false

/-- Claim C5: construction fails with InvalidInputData exactly when a
dimension is zero, the record bytes are empty, or the record parse
fails; otherwise it returns the decoder with the state transition table
and the initial-state tensor initialized from the record. -/
theorem claim5_construction (parse : List Nat → Except String ConfigRecord)
    (defaultST : List Nat) (record : List Nat) (w h : Nat) :
    (is_invalid_input (decoder_new parse defaultST record w h) = true ↔
      w = 0 ∨ h = 0 ∨ record = [] ∨ parse_failed (parse record) = true)
    ∧ (∀ cfg, parse record = .ok cfg → w ≠ 0 → h ≠ 0 → record ≠ [] →
        decoder_new parse defaultST record w h =
          .ok { width := w, height := h, record := cfg,
                state_transition := state_transition_of defaultST cfg.state_transition_delta,
                initial_states := initial_states_of cfg.initial_state_delta,
                current_frame := { keyframe := false, slice_info := [], slices := [] } }) := by
  constructor
  · by_cases hwh : w = 0 ∨ h = 0
    · have hd : decoder_new parse defaultST record w h =
          .error (.InvalidInputData ("invalid dimensions: " ++ toString w ++ "x" ++ toString h)) := by
        unfold decoder_new
        rw [if_pos hwh]
      rw [hd]
      constructor
      · intro _
        rcases hwh with h0 | h0
        · exact Or.inl h0
        · exact Or.inr (Or.inl h0)
      · intro _
        rfl
    · by_cases hrec : record = []
      · have hd : decoder_new parse defaultST record w h =
            .error (.InvalidInputData "invalid record with length zero") := by
          unfold decoder_new
          rw [if_neg hwh, if_pos (by simp [hrec])]
        rw [hd]
        constructor
        · intro _
          exact Or.inr (Or.inr (Or.inl hrec))
        · intro _
          rfl
      · cases hp : parse record with
        | error e =>
          have hd : decoder_new parse defaultST record w h =
              .error (.InvalidInputData ("invalid v3 configuration record: " ++ e)) := by
            unfold decoder_new
            rw [if_neg hwh, if_neg (by simp [List.isEmpty_iff, hrec]), hp]
          rw [hd]
          constructor
          · intro _
            exact Or.inr (Or.inr (Or.inr rfl))
          · intro _
            rfl
        | ok cfg =>
          have hd : decoder_new parse defaultST record w h =
              .ok { width := w, height := h, record := cfg,
                    state_transition := state_transition_of defaultST cfg.state_transition_delta,
                    initial_states := initial_states_of cfg.initial_state_delta,
                    current_frame := { keyframe := false, slice_info := [], slices := [] } } := by
            unfold decoder_new
            rw [if_neg hwh, if_neg (by simp [List.isEmpty_iff, hrec]), hp]
          rw [hd]
          constructor
          · intro hfalse
            simp [is_invalid_input] at hfalse
          · intro hor
            rcases hor with h0 | h0 | h0 | h0
            · exact absurd (Or.inl h0) hwh
            · exact absurd (Or.inr h0) hwh
            · exact absurd h0 hrec
            · simp [parse_failed] at h0
  · intro cfg hp hw hh hrec
    unfold decoder_new
    rw [if_neg (by tauto), if_neg (by simp [List.isEmpty_iff, hrec]), hp]

/-- Witness for claim C5 with a concrete record parser. -/
theorem claim5_witness :
    decoder_new (fun _ => .ok rec_base) [] [1] 1 1 =
      .ok { width := 1, height := 1, record := rec_base,
            state_transition := state_transition_of [] rec_base.state_transition_delta,
            initial_states := initial_states_of rec_base.initial_state_delta,
            current_frame := { keyframe := false, slice_info := [], slices := [] } } :=
  (claim5_construction (fun _ => .ok rec_base) [] [1] 1 1).2 rec_base rfl
    (by decide) (by decide) (by decide)

/-! ### Claim C6: inter-frame footer parsing -/

lemma clone_states_length (old : List Slice) (c : Bool) (n : Nat) :
    (clone_states old c n).length = n := by
  simp [clone_states]

lemma clone_states_getD (old : List Slice) (c : Bool) (n i : Nat) (h : i < n) :
    (clone_states old c n).getD i default =
      { (default : Slice) with
        state := (old.getD i default).state,
        golomb_state :=
          if c then (old.getD i default).golomb_state
          else (default : Slice).golomb_state } := by
  unfold clone_states
  exact getD_range_map _ _ _ _ h

/-- Claim C6: for a non-keyframe, parse_footers fails with a SliceError
when the footer scan finds a slice count different from the stored
frame; when the counts match it succeeds and every new slice carries
the prior slice range-coder state, and the prior Golomb state too when
coder_type is 0. -/
theorem claim6_inter_footers (D : Decoder) (buf : List Nat) (infos : List SliceInfo)
    (hk : D.current_frame.keyframe = false)
    (hcs : count_slices (D.record.ec != 0) buf = .ok infos) :
    (infos.length ≠ D.current_frame.slices.length →
      (parse_footers D buf).2 = .error (.SliceError
        "inter frames must have the same number of slices as the preceding intra frame"))
    ∧ (infos.length = D.current_frame.slices.length →
        (parse_footers D buf).2 = .ok () ∧
        (parse_footers D buf).1.current_frame.slices.length = D.current_frame.slices.length ∧
        ∀ i, i < infos.length →
          ((parse_footers D buf).1.current_frame.slices.getD i default).state
            = (D.current_frame.slices.getD i default).state ∧
          (D.record.coder_type = 0 →
            ((parse_footers D buf).1.current_frame.slices.getD i default).golomb_state
              = (D.current_frame.slices.getD i default).golomb_state)) := by
  unfold parse_footers
  rw [hcs]
  simp only [hk, eq_self_iff_true, if_true]
  constructor
  · intro hne
    rw [if_pos hne]
  · intro heq
    rw [if_neg (by simp [heq])]
    refine ⟨rfl, ?_, ?_⟩
    · simp [clone_states_length, heq]
    · intro i hi
      rw [clone_states_getD _ _ _ i hi]
      constructor
      · rfl
      · intro hc0
        simp [hc0]

def dec6 : Decoder :=
  dec_with { rec_base with coder_type := 0 }
    [{ (default : Slice) with state := [[[5]]], golomb_state := [[GolombState.new]] }] []

def buf6 : List Nat := [170, 187, 0, 0, 0, 2]

/-- Witness for claim C6: an inter frame whose footer scan matches the
stored slice count carries the stored slice state into the new slices. -/
theorem claim6_witness :
    ((parse_footers dec6 buf6).1.current_frame.slices.getD 0 default).state
      = (dec6.current_frame.slices.getD 0 default).state ∧
    ((parse_footers dec6 buf6).1.current_frame.slices.getD 0 default).golomb_state
      = (dec6.current_frame.slices.getD 0 default).golomb_state := by
  have h := ((claim6_inter_footers dec6 buf6 [⟨0, 2, 0⟩] rfl (by decide)).2
    (by decide)).2.2 0 (by decide)
  exact ⟨h.1, h.2 rfl⟩

/-! ### Claim C8: RCT variant selection -/

/-- Counterexample to claim C8: at bit depth 10 the selected RCT
variant still depends on the extra plane flag, so the selection is not
purely by bit depth, and 9 to 15 bits does not always give the in-place
variant. -/
theorem claim8_counterexample :
    rct_variant 10 true = RctVariant.v16 ∧ rct_variant 10 false = RctVariant.vMid := by
  decide

/-- Claim C8 as amended: the RCT inverse is selected by bit depth and
the extra plane flag; 8 bits writes the byte planes from the 16-bit
scratch, 9 to 15 bits without an extra plane is in place on the 16-bit
planes, and otherwise (16 bits, or 9 to 15 bits with an extra plane)
the 16-bit planes are written from the 32-bit scratch. -/
theorem claim8_amended (bits : Nat) (ep : Bool) (f : Frame) (w h stride off : Nat) :
    (bits = 8 →
      apply_rct bits ep f w h stride off = { f with buf := rct8 f.buf f.buf16 w h stride off })
    ∧ (9 ≤ bits → bits ≤ 15 → ep = false →
        apply_rct bits ep f w h stride off =
          { f with buf16 := rct_mid f.buf16 bits w h stride off })
    ∧ (bits ≠ 8 → (bits < 9 ∨ 15 < bits ∨ ep = true) →
        apply_rct bits ep f w h stride off =
          { f with buf16 := rct16 f.buf16 f.buf32 w h stride off }) := by
  refine ⟨?_, ?_, ?_⟩
  · intro h8
    unfold apply_rct
    rw [if_pos h8]
  · intro h9 h15 hep
    unfold apply_rct
    rw [if_neg (by omega), if_pos ⟨h9, h15, hep⟩]
  · intro h8 hor
    unfold apply_rct
    rw [if_neg h8, if_neg ?_]
    rintro ⟨h9, h15, hep⟩
    rcases hor with h | h | h
    · omega
    · omega
    · rw [h] at hep
      simp at hep

/-- Witness for claim C8: at 10 bits with an extra plane the 16-bit
variant runs, reading the 32-bit scratch. -/
theorem claim8_witness :
    apply_rct 10 true frame0 1 1 1 0 =
      { frame0 with buf16 := rct16 frame0.buf16 frame0.buf32 1 1 1 0 } :=
  (claim8_amended 10 true frame0 1 1 1 0).2.2 (by decide) (Or.inr (Or.inr rfl))

/-! ### Claim C7: determinism -/

/-- Claim C7: decoding is deterministic; two decode_frame evaluations
on the same decoder state and packet bytes return byte-identical plane
buffers. -/
theorem claim7_determinism (env : Env) (D : Decoder) (p : List Nat) (f1 f2 : Frame)
    (h1 : (decode_frame env D p).2 = .ok f1)
    (h2 : (decode_frame env D p).2 = .ok f2) :
    f1.buf = f2.buf ∧ f1.buf16 = f2.buf16 := by
  rw [h1] at h2
  injection h2 with h
  rw [h]
  exact ⟨rfl, rfl⟩

def dec7 : Decoder := dec_with rec_base [] []

def pkt7 : List Nat := [255, 0, 0, 0, 0, 0, 0, 4]

/-- Witness for claim C7 at a concrete decoder and packet. -/
theorem claim7_witness : frame0.buf = frame0.buf ∧ frame0.buf16 = frame0.buf16 :=
  claim7_determinism env0 dec7 pkt7 frame0 frame0 (by decide) (by decide)

/-! ### Frame metadata preservation through the slice pipeline -/

lemma decode_slice_main_meta (env : Env) (D : Decoder) (buf : List Nat) (i : Nat) (f : Frame) :
    (decode_slice_main env D buf i f).2.chroma_subsample_v = f.chroma_subsample_v
    ∧ (decode_slice_main env D buf i f).2.chroma_subsample_h = f.chroma_subsample_h :=
  ⟨rfl, rfl⟩

lemma decode_slice_meta (env : Env) (D : Decoder) (buf : List Nat) (i : Nat) (f : Frame)
    (df : Decoder × Frame) (h : decode_slice env D buf i f = .ok df) :
    df.2.chroma_subsample_v = f.chroma_subsample_v
    ∧ df.2.chroma_subsample_h = f.chroma_subsample_h := by
  unfold decode_slice at h
  split_ifs at h with h1 h2 h3
  all_goals
    first
      | exact Except.noConfusion h
      | (injection h with h
         subst h
         exact decode_slice_main_meta env D buf i f)

lemma slice_loop_meta (env : Env) (buf : List Nat) (l : List Nat) :
    ∀ (D : Decoder) (f : Frame) (D2 : Decoder) (f2 : Frame),
      slice_loop env buf l D f = (D2, .ok f2) →
      f2.chroma_subsample_v = f.chroma_subsample_v
      ∧ f2.chroma_subsample_h = f.chroma_subsample_h := by
  induction l with
  | nil =>
    intro D f D2 f2 h
    unfold slice_loop at h
    injection h with hD hf
    injection hf with hf
    rw [← hf]
    exact ⟨rfl, rfl⟩
  | cons i rest ih =>
    intro D f D2 f2 h
    unfold slice_loop at h
    cases hds : decode_slice env D buf i f with
    | error e =>
      rw [hds] at h
      simp at h
    | ok df =>
      rw [hds] at h
      simp only at h
      have h1 := ih df.1 df.2 D2 f2 h
      have h2 := decode_slice_meta env D buf i f df hds
      exact ⟨h1.1.trans h2.1, h1.2.trans h2.2⟩

lemma alloc_planes_meta (D : Decoder) (f : Frame) :
    (alloc_planes D f).chroma_subsample_v = f.chroma_subsample_v
    ∧ (alloc_planes D f).chroma_subsample_h = f.chroma_subsample_h := by
  simp only [alloc_planes]
  split_ifs <;> exact ⟨rfl, rfl⟩

/-! ### Reduction lemmas for decode_frame -/

lemma decode_frame_footer_err (env : Env) (D : Decoder) (p : List Nat) (D2 : Decoder) (e : Err)
    (hpf : parse_footers
      { D with current_frame := { D.current_frame with keyframe := is_keyframe p } } p
      = (D2, .error e)) :
    decode_frame env D p = (D2, .error (.FrameError ("invalid frame footer: " ++ e.msg))) := by
  simp only [decode_frame]
  rw [hpf]

lemma decode_frame_slice_err (env : Env) (D : Decoder) (p : List Nat) (D2 : Decoder) (u : Unit)
    (D3 : Decoder) (e : Err)
    (hpf : parse_footers
      { D with current_frame := { D.current_frame with keyframe := is_keyframe p } } p
      = (D2, .ok u))
    (hsl : slice_loop env p (List.range D2.current_frame.slices.length) D2
      (alloc_planes D (mk_frame D)) = (D3, .error e)) :
    decode_frame env D p = (D3, .error e) := by
  simp only [decode_frame]
  rw [hpf]
  simp only
  rw [hsl]

lemma decode_frame_ok (env : Env) (D : Decoder) (p : List Nat) (D2 : Decoder) (u : Unit)
    (D3 : Decoder) (f4 : Frame)
    (hpf : parse_footers
      { D with current_frame := { D.current_frame with keyframe := is_keyframe p } } p
      = (D2, .ok u))
    (hsl : slice_loop env p (List.range D2.current_frame.slices.length) D2
      (alloc_planes D (mk_frame D)) = (D3, .ok f4)) :
    decode_frame env D p =
      (D3, .ok { (if D.record.bits_per_raw_sample = 8 ∧ D.record.colorspace_type = 1 then
          { f4 with buf16 := ([] : List (List Nat)) } else f4) with
        buf32 := ([] : List (List Nat)) }) := by
  simp only [decode_frame]
  rw [hpf]
  simp only
  rw [hsl]

/-! ### Claims C9 and C10: decode_frame output shape -/

/-- Claim C9: a successful decode_frame returns a frame with the 32-bit
scratch empty, and with the 16-bit scratch empty too in 8-bit RGB mode;
the scratch buffers are not exposed. -/
theorem claim9_scratch_released (env : Env) (D : Decoder) (p : List Nat) (f : Frame)
    (h : (decode_frame env D p).2 = .ok f) :
    f.buf32 = [] ∧
    (D.record.bits_per_raw_sample = 8 → D.record.colorspace_type = 1 → f.buf16 = []) := by
  rcases hpf : parse_footers
      { D with current_frame := { D.current_frame with keyframe := is_keyframe p } } p
    with ⟨D2, r2⟩
  cases r2 with
  | error e =>
    rw [decode_frame_footer_err env D p D2 e hpf] at h
    exact Except.noConfusion h
  | ok u =>
    rcases hsl : slice_loop env p (List.range D2.current_frame.slices.length) D2
        (alloc_planes D (mk_frame D)) with ⟨D3, r3⟩
    cases r3 with
    | error e =>
      rw [decode_frame_slice_err env D p D2 u D3 e hpf hsl] at h
      exact Except.noConfusion h
    | ok f4 =>
      rw [decode_frame_ok env D p D2 u D3 f4 hpf hsl] at h
      injection h with h
      rw [← h]
      constructor
      · rfl
      · intro h8 hcs
        rw [if_pos ⟨h8, hcs⟩]

/-- The frame returned by the concrete 8-bit RGB decode below. -/
def frame9 : Frame := ⟨[], [], [], 1, 1, 8, 1, true, false, 0, 0⟩

/-- Witness for claim C9: a successful 8-bit RGB decode returns empty
scratch buffers. -/
theorem claim9_witness :
    frame9.buf32 = [] ∧ frame9.buf16 = [] := by
  have h := claim9_scratch_released env0
    (dec_with { rec_base with colorspace_type := 1, chroma_planes := true } [] [])
    [255, 1, 0, 0, 0, 0, 0, 4] frame9 (by decide)
  exact ⟨h.1, h.2 rfl rfl⟩

/-- Claim C10: a successful decode_frame reports zero chroma
subsampling whenever the record has no chroma planes, regardless of the
stored log2 subsample values, and passes the record values through when
chroma planes are present. -/
theorem claim10_chroma_subsampling (env : Env) (D : Decoder) (p : List Nat) (f : Frame)
    (h : (decode_frame env D p).2 = .ok f) :
    (D.record.chroma_planes = false → f.chroma_subsample_v = 0 ∧ f.chroma_subsample_h = 0)
    ∧ (D.record.chroma_planes = true →
        f.chroma_subsample_v = D.record.log2_v_chroma_subsample
        ∧ f.chroma_subsample_h = D.record.log2_h_chroma_subsample) := by
  rcases hpf : parse_footers
      { D with current_frame := { D.current_frame with keyframe := is_keyframe p } } p
    with ⟨D2, r2⟩
  cases r2 with
  | error e =>
    rw [decode_frame_footer_err env D p D2 e hpf] at h
    exact Except.noConfusion h
  | ok u =>
    rcases hsl : slice_loop env p (List.range D2.current_frame.slices.length) D2
        (alloc_planes D (mk_frame D)) with ⟨D3, r3⟩
    cases r3 with
    | error e =>
      rw [decode_frame_slice_err env D p D2 u D3 e hpf hsl] at h
      exact Except.noConfusion h
    | ok f4 =>
      rw [decode_frame_ok env D p D2 u D3 f4 hpf hsl] at h
      injection h with h
      have hmeta := slice_loop_meta env p (List.range D2.current_frame.slices.length)
        D2 (alloc_planes D (mk_frame D)) D3 f4 hsl
      have halloc := alloc_planes_meta D (mk_frame D)
      have hv : f.chroma_subsample_v = (mk_frame D).chroma_subsample_v := by
        rw [← h]
        have hcleanup : ((if D.record.bits_per_raw_sample = 8 ∧ D.record.colorspace_type = 1 then
            { f4 with buf16 := ([] : List (List Nat)) } else f4)).chroma_subsample_v
            = f4.chroma_subsample_v := by
          split_ifs <;> rfl
        calc ({ (if D.record.bits_per_raw_sample = 8 ∧ D.record.colorspace_type = 1 then
                { f4 with buf16 := ([] : List (List Nat)) } else f4) with
              buf32 := ([] : List (List Nat)) }).chroma_subsample_v
            = f4.chroma_subsample_v := hcleanup
          _ = (alloc_planes D (mk_frame D)).chroma_subsample_v := hmeta.1
          _ = (mk_frame D).chroma_subsample_v := halloc.1
      have hh : f.chroma_subsample_h = (mk_frame D).chroma_subsample_h := by
        rw [← h]
        have hcleanup : ((if D.record.bits_per_raw_sample = 8 ∧ D.record.colorspace_type = 1 then
            { f4 with buf16 := ([] : List (List Nat)) } else f4)).chroma_subsample_h
            = f4.chroma_subsample_h := by
          split_ifs <;> rfl
        calc ({ (if D.record.bits_per_raw_sample = 8 ∧ D.record.colorspace_type = 1 then
                { f4 with buf16 := ([] : List (List Nat)) } else f4) with
              buf32 := ([] : List (List Nat)) }).chroma_subsample_h
            = f4.chroma_subsample_h := hcleanup
          _ = (alloc_planes D (mk_frame D)).chroma_subsample_h := hmeta.2
          _ = (mk_frame D).chroma_subsample_h := halloc.2
      constructor
      · intro hnc
        rw [hv, hh]
        unfold mk_frame
        simp [hnc]
      · intro hc
        rw [hv, hh]
        unfold mk_frame
        simp [hc]

/-- Witness for claim C10: with chroma planes off and nonzero stored
log2 subsample values, the returned frame reports zero subsampling. -/
theorem claim10_witness :
    frame0.chroma_subsample_v = 0 ∧ frame0.chroma_subsample_h = 0 := by
  have h := claim10_chroma_subsampling env0
    (dec_with { rec_base with log2_v_chroma_subsample := 3, log2_h_chroma_subsample := 2 } [] [])
    [255, 2, 0, 0, 0, 0, 0, 4] frame0 (by decide)
  exact h.1 rfl

/-! ### Claim C1: decoder state across failed decodes -/

lemma set_kf_slices (D : Decoder) (b : Bool) :
    ({ D with current_frame := { D.current_frame with keyframe := b } }
      : Decoder).current_frame.slices = D.current_frame.slices := rfl

lemma parse_footers_err_slices (X : Decoder) (buf : List Nat) (e : Err)
    (h : (parse_footers X buf).2 = .error e) :
    (parse_footers X buf).1.current_frame.slices = X.current_frame.slices := by
  unfold parse_footers at h ⊢
  cases hcs : count_slices (X.record.ec != 0) buf with
  | error s =>
    rfl
  | ok infos =>
    rw [hcs] at h
    simp only at h ⊢
    split_ifs at h ⊢
    all_goals rfl

lemma slice_loop_err_shape (env : Env) (buf : List Nat) (l : List Nat) :
    ∀ D f D2 e, slice_loop env buf l D f = (D2, .error e) → ∃ s, e = .SliceError s := by
  induction l with
  | nil =>
    intro D f D2 e h
    unfold slice_loop at h
    injection h with h1 h2
    exact Except.noConfusion h2
  | cons i rest ih =>
    intro D f D2 e h
    unfold slice_loop at h
    cases hds : decode_slice env D buf i f with
    | error e0 =>
      rw [hds] at h
      injection h with h1 h2
      injection h2 with h2
      exact ⟨_, h2.symm⟩
    | ok df =>
      rw [hds] at h
      exact ih df.1 df.2 D2 e h

/-- The slice vector that parse_footers installs for an inter frame
whose footer scan found the infos: defaults carrying the prior slices
state tensors. -/
def inter_carried (D : Decoder) (infos : List SliceInfo) : Decoder :=
  { D with current_frame :=
      { keyframe := false, slice_info := infos,
        slices := clone_states D.current_frame.slices
          (decide (D.record.coder_type = 0)) infos.length } }

/-- Shared path for both ec failure modes of the first slice of an
inter frame: once footer parsing succeeds with a matching count and
slice 0 of the carried decoder fails, decode_frame stops there with
the wrapped error and the carried decoder as its final state. -/
lemma inter_slice0_fail (env : Env) (D : Decoder) (p : List Nat)
    (infos : List SliceInfo) (e0 : Err)
    (hk : is_keyframe p = false)
    (hcs : count_slices (D.record.ec != 0) p = .ok infos)
    (hlen : infos.length = D.current_frame.slices.length)
    (hn : 0 < infos.length)
    (hds : decode_slice env (inter_carried D infos) p 0 (alloc_planes D (mk_frame D))
      = .error e0) :
    decode_frame env D p = (inter_carried D infos,
      .error (.SliceError ("slice " ++ toString (0 : Nat) ++ " failed: " ++ Err.msg e0))) := by
  obtain ⟨m, hm⟩ : ∃ m, infos.length = m + 1 := ⟨infos.length - 1, by omega⟩
  have hpf : parse_footers
      { D with current_frame := { D.current_frame with keyframe := is_keyframe p } } p
      = (inter_carried D infos, .ok ()) := by
    rw [hk]
    unfold parse_footers inter_carried
    have hcs2 : count_slices
        (({ D with current_frame := { D.current_frame with keyframe := false } } :
          Decoder).record.ec != 0) p = .ok infos := hcs
    rw [hcs2]
    simp only
    rw [if_pos trivial, if_neg (fun hco => hco hlen)]
  have hL : (inter_carried D infos).current_frame.slices.length = m + 1 := by
    show (clone_states D.current_frame.slices
      (decide (D.record.coder_type = 0)) infos.length).length = m + 1
    rw [clone_states_length]
    exact hm
  have hloop : slice_loop env p
      (List.range (inter_carried D infos).current_frame.slices.length)
      (inter_carried D infos) (alloc_planes D (mk_frame D))
      = (inter_carried D infos,
         .error (.SliceError ("slice " ++ toString (0 : Nat) ++ " failed: " ++ Err.msg e0))) := by
    rw [hL, List.range_succ_eq_map]
    unfold slice_loop
    rw [hds]
  exact decode_frame_slice_err env D p _ () _ _ hpf hloop

lemma inter_carried_slices (D : Decoder) (infos : List SliceInfo) :
    (inter_carried D infos).current_frame.slices
      = clone_states D.current_frame.slices
          (decide (D.record.coder_type = 0)) infos.length := rfl

/-- The carried slice vector is value-equal to the prior one on the
range-coder state, and on the Golomb state when coder_type is 0. -/
lemma inter_carried_state (D : Decoder) (infos : List SliceInfo)
    (hlen : infos.length = D.current_frame.slices.length) :
    (inter_carried D infos).current_frame.slices.length = D.current_frame.slices.length
    ∧ ∀ i, i < infos.length →
        ((inter_carried D infos).current_frame.slices.getD i default).state
          = (D.current_frame.slices.getD i default).state
        ∧ (D.record.coder_type = 0 →
            ((inter_carried D infos).current_frame.slices.getD i default).golomb_state
              = (D.current_frame.slices.getD i default).golomb_state) := by
  rw [inter_carried_slices]
  constructor
  · rw [clone_states_length, hlen]
  · intro i hi
    rw [clone_states_getD _ _ _ i hi]
    constructor
    · rfl
    · intro hc0
      simp [hc0]

/-- Claim C1 as amended: a decode_frame failure during footer parsing
(surfaced as a FrameError) leaves the stored per-slice tensors
untouched, and an inter frame whose first slice fails the ec integrity
check before any slice content is decoded, in either failure mode
(nonzero error_status, or a nonzero CRC residue over the slice data
plus its footer), leaves the stored range-coder state tensors
value-equal to those carried from the prior keyframe (and the Golomb
tensors too when coder_type is 0).  A keyframe packet, however,
replaces the stored slices during footer parsing even if the decode
then fails (see the counterexample). -/
theorem claim1_amended (env : Env) (D : Decoder) (p : List Nat) :
    (∀ s, (decode_frame env D p).2 = .error (.FrameError s) →
      (decode_frame env D p).1.current_frame.slices = D.current_frame.slices)
    ∧ (∀ infos : List SliceInfo,
        is_keyframe p = false →
        D.record.ec = 1 →
        count_slices (D.record.ec != 0) p = .ok infos →
        infos.length = D.current_frame.slices.length →
        0 < infos.length →
        (infos.getD 0 default).error_status ≠ 0 →
        (decode_frame env D p).2 = .error (.SliceError
          ("slice " ++ toString (0 : Nat) ++ " failed: " ++
            ("error_status is non-zero: " ++ toString (infos.getD 0 default).error_status)))
        ∧ (decode_frame env D p).1.current_frame.slices.length
            = D.current_frame.slices.length
        ∧ ∀ i, i < infos.length →
            ((decode_frame env D p).1.current_frame.slices.getD i default).state
              = (D.current_frame.slices.getD i default).state
            ∧ (D.record.coder_type = 0 →
                ((decode_frame env D p).1.current_frame.slices.getD i default).golomb_state
                  = (D.current_frame.slices.getD i default).golomb_state))
    ∧ (∀ infos : List SliceInfo,
        is_keyframe p = false →
        D.record.ec = 1 →
        count_slices (D.record.ec != 0) p = .ok infos →
        infos.length = D.current_frame.slices.length →
        0 < infos.length →
        (infos.getD 0 default).error_status = 0 →
        crc32_mpeg2 ((p.drop (infos.getD 0 default).pos).take
          ((infos.getD 0 default).size + 8)) ≠ 0 →
        (decode_frame env D p).2 = .error (.SliceError
          ("slice " ++ toString (0 : Nat) ++ " failed: " ++ "CRC mismatch"))
        ∧ (decode_frame env D p).1.current_frame.slices.length
            = D.current_frame.slices.length
        ∧ ∀ i, i < infos.length →
            ((decode_frame env D p).1.current_frame.slices.getD i default).state
              = (D.current_frame.slices.getD i default).state
            ∧ (D.record.coder_type = 0 →
                ((decode_frame env D p).1.current_frame.slices.getD i default).golomb_state
                  = (D.current_frame.slices.getD i default).golomb_state)) := by
  refine ⟨?_, ?_, ?_⟩
  · intro s hs
    rcases hpf : parse_footers
        { D with current_frame := { D.current_frame with keyframe := is_keyframe p } } p
      with ⟨D2, r2⟩
    cases r2 with
    | error e =>
      have hx := decode_frame_footer_err env D p D2 e hpf
      have hfst : (decode_frame env D p).1 = D2 := congrArg Prod.fst hx
      have h1 : (parse_footers
          { D with current_frame := { D.current_frame with keyframe := is_keyframe p } } p).2
          = .error e := congrArg Prod.snd hpf
      have h2 := parse_footers_err_slices _ p e h1
      have h3 : (parse_footers
          { D with current_frame := { D.current_frame with keyframe := is_keyframe p } } p).1
          = D2 := congrArg Prod.fst hpf
      rw [h3] at h2
      rw [set_kf_slices D (is_keyframe p)] at h2
      rw [hfst]
      exact h2
    | ok u =>
      rcases hsl : slice_loop env p (List.range D2.current_frame.slices.length) D2
          (alloc_planes D (mk_frame D)) with ⟨D3, r3⟩
      cases r3 with
      | error e =>
        have hx := decode_frame_slice_err env D p D2 u D3 e hpf hsl
        rw [hx] at hs
        obtain ⟨s0, rfl⟩ := slice_loop_err_shape env p _ D2 _ D3 e hsl
        injection hs with hs
        exact Err.noConfusion hs
      | ok f4 =>
        have hx := decode_frame_ok env D p D2 u D3 f4 hpf hsl
        rw [hx] at hs
        exact Except.noConfusion hs
  · intro infos hk hec hcs hlen hn hes
    have hds : decode_slice env (inter_carried D infos) p 0 (alloc_planes D (mk_frame D))
        = .error (.SliceError ("error_status is non-zero: " ++
            toString (infos.getD 0 default).error_status)) := by
      unfold decode_slice
      have hec2 : (inter_carried D infos).record.ec = 1 := hec
      have hes2 : ((inter_carried D infos).current_frame.slice_info.getD 0 default).error_status
          ≠ 0 := hes
      rw [if_pos hec2, if_pos hes2]
      rfl
    have hdf := inter_slice0_fail env D p infos _ hk hcs hlen hn hds
    have hps := inter_carried_state D infos hlen
    refine ⟨?_, ?_, ?_⟩
    · rw [hdf]
      rfl
    · rw [hdf]
      exact hps.1
    · intro i hi
      rw [hdf]
      exact hps.2 i hi
  · intro infos hk hec hcs hlen hn hes0 hcrc
    have hds : decode_slice env (inter_carried D infos) p 0 (alloc_planes D (mk_frame D))
        = .error (.InvalidInputData "CRC mismatch") := by
      unfold decode_slice
      have hec2 : (inter_carried D infos).record.ec = 1 := hec
      have hes2 : ¬(((inter_carried D infos).current_frame.slice_info.getD 0 default).error_status
          ≠ 0) := fun hco => hco hes0
      have hcrc2 : crc32_mpeg2
          ((p.drop ((inter_carried D infos).current_frame.slice_info.getD 0 default).pos).take
            (((inter_carried D infos).current_frame.slice_info.getD 0 default).size + 8)) ≠ 0 := hcrc
      rw [if_pos hec2, if_neg hes2, if_pos hcrc2]
    have hdf := inter_slice0_fail env D p infos _ hk hcs hlen hn hds
    have hps := inter_carried_state D infos hlen
    refine ⟨?_, ?_, ?_⟩
    · rw [hdf]
      rfl
    · rw [hdf]
      exact hps.1
    · intro i hi
      rw [hdf]
      exact hps.2 i hi

def dec1 : Decoder :=
  dec_with { rec_base with ec := 1 } [{ (default : Slice) with state := [[[5]]] }] []

def pkt1 : List Nat := [255, 0, 0, 0, 0, 0, 1, 0, 0, 2]

/-- Counterexample to claim C1 as stated: a keyframe packet whose only
slice fails the ec integrity check makes decode_frame fail, yet the
stored per-slice state tensors are replaced (the prior keyframe state
is gone). -/
theorem claim1_counterexample :
    (decode_frame env0 dec1 pkt1).2
        = .error (.SliceError "slice 0 failed: error_status is non-zero: 1")
    ∧ ((decode_frame env0 dec1 pkt1).1.current_frame.slices.getD 0 default).state
        ≠ (dec1.current_frame.slices.getD 0 default).state := by
  decide

def dec1w : Decoder :=
  dec_with { rec_base with ec := 1 } [{ (default : Slice) with state := [[[5]]] }] []

def pkt1w : List Nat := [0, 0, 0, 0, 0, 0, 1, 0, 0, 2]

def dec1c : Decoder :=
  dec_with { rec_base with ec := 1 } [{ (default : Slice) with state := [[[7]]] }] []

def pkt1c : List Nat := [0, 0, 0, 0, 0, 0, 0, 0, 0, 2]

/-- Witness for claim C1 as amended: an inter packet failing the first
slice ec check leaves the stored state tensor value-equal, in both
failure modes (nonzero error_status, and a CRC mismatch). -/
theorem claim1_witness :
    (((decode_frame env0 dec1w pkt1w).1.current_frame.slices.getD 0 default).state
      = (dec1w.current_frame.slices.getD 0 default).state)
    ∧ (((decode_frame env0 dec1c pkt1c).1.current_frame.slices.getD 0 default).state
      = (dec1c.current_frame.slices.getD 0 default).state) := by
  constructor
  · have h := ((claim1_amended env0 dec1w pkt1w).2.1 [⟨0, 2, 1⟩]
      (by decide) (by decide) (by decide) (by decide) (by decide) (by decide)).2.2 0 (by decide)
    exact h.1
  · have h := ((claim1_amended env0 dec1c pkt1c).2.2 [⟨0, 2, 0⟩]
      (by decide) (by decide) (by decide) (by decide) (by decide) (by decide)
      (by decide)).2.2 0 (by decide)
    exact h.1

end FFV1
